import Mathlib

/-!
Shallow embedding of `polymodels/fields.py` (django-polymodels).

The file embeds the three components of the source module:

* `PolymorphicManyToOneRel` — a relation descriptor whose
  `limit_choices_to` property merges a settable override with the
  subclass constraint of its polymorphic type;
* `PolymorphicTypeField` — a foreign-key field to the content-type
  registry, with deferred resolution of its polymorphic type;
* `LazyPolymorphicTypeQueryset` — a one-shot lazily materialized
  queryset wrapper.

External collaborators (Django's `ForeignKey`, `ContentType`,
`LazyObject`, the compat accessors `get_remote_field` /
`get_remote_model` / `get_content_type`, and the polymorphic model's
`subclasses_lookup` registry) are embedded only through the contracts
the source relies on; each such point is flagged in its doc comment.
-/

namespace Polymodels

/-- An association list standing for a Python keyword-argument dict such
as the one returned by `subclasses_lookup('pk')`
(e.g. `{'pk__in': [...]}`). Keys are strings, values are abstracted to
integers (content-type ids / id sets are opaque to the merging logic in
the source). -/
abbrev Lookup := List (String × Int)

/-- First-match lookup in an association list; this is the observable
semantics of reading a key from the corresponding Python dict. -/
def Lookup.get (l : Lookup) (k : String) : Option Int :=
  (l.find? (fun p => p.1 = k)).map (fun p => p.2)

/-- One step of the dict update: a pair of the base dict keeps its key
and takes the value from `extra` when `extra` carries that key. -/
def updatePair (extra : Lookup) (p : String × Int) : String × Int :=
  match extra.get p.1 with
  | some v => (p.1, v)
  | none => p

/-- Embedding of Python `dict(base, **extra)` as used at
`dict(limit_choices_to, **subclasses_lookup)` in the getter: a copy of
`base` updated with every pair of `extra`; on a key conflict the value
from `extra` wins. -/
def dictUpdate (base extra : Lookup) : Lookup :=
  base.map (updatePair extra) ++
  extra.filter (fun p => (base.get p.1).isNone)

/-- Django `Q` objects as the source manipulates them: either built from
a keyword dict (`Q(**d)`) or a conjunction (`q1 & q2`). -/
inductive Q where
  | ofDict : Lookup → Q
  | and : Q → Q → Q
  deriving DecidableEq, Repr

/-- The shapes a `limit_choices_to` value can take in the getter's
`isinstance` chain: a plain dict or a `Q` object. Absence (`None`) is
represented by `Option LCT`. -/
inductive LCT where
  | dict : Lookup → LCT
  | q : Q → LCT
  deriving DecidableEq, Repr

/-- The slice of a Django model class the source reads: its `__name__`,
its `_meta.object_name`, whether `_meta.pk` is defined, and whether it
is a subclass of `BasePolymorphicModel` (the registry of subclasses
itself lives in `models.py`, outside this module; only the boolean test
`issubclass(model, BasePolymorphicModel)` is consumed here). -/
structure ModelCls where
  py_name : String
  meta_object_name : String
  meta_pk_defined : Bool
  is_polymorphic_subclass : Bool
  deriving DecidableEq, Repr

/-- The `django.contrib.contenttypes.models.ContentType` model used as
the default relation target. -/
def ContentType : ModelCls :=
  { py_name := "ContentType"
    meta_object_name := "ContentType"
    meta_pk_defined := true
    is_polymorphic_subclass := false }

/-- State of a `PolymorphicManyToOneRel` instance.

`subclasses_lookup` holds the mapping that
`self.polymorphic_type.subclasses_lookup('pk')` returns; the registry
computing it lives in `models.py` (outside this module), so the getter
is embedded relative to this stored answer.  `cache` is the
`self.__dict__['limit_choices_to']` slot.  `lookup_calls` instruments
how many times the getter has invoked `subclasses_lookup`. -/
structure Rel where
  /-- The relation's target model (`to`), normally `ContentType`;
  `get_remote_model` returns it. -/
  model : Sum ModelCls String
  /-- The `polymorphic_type` attribute: a resolved class or lazy name. -/
  polymorphic_type : Sum ModelCls String
  /-- The `field_name` the relation targets (used as `to_field_name`). -/
  field_name : String
  /-- The `related_name` the owning field was constructed with. -/
  related_name : String
  /-- Answer of `polymorphic_type.subclasses_lookup('pk')`. -/
  subclasses_lookup : Lookup
  /-- The `self._limit_choices_to` override slot. -/
  lct_override : Option LCT
  /-- The `self.__dict__['limit_choices_to']` cache slot. -/
  cache : Option LCT
  /-- Instrumentation: number of `subclasses_lookup` invocations. -/
  lookup_calls : Nat
  deriving DecidableEq, Repr

/-- The body of the `limit_choices_to` property getter (`fget`):
calls `subclasses_lookup('pk')`, merges it with the override according
to the `is None` / `isinstance(dict)` / `isinstance(Q)` chain, stores
the result in the `__dict__` cache slot, and returns it. -/
def limit_choices_to_get (self : Rel) : LCT × Rel :=
  let subclasses := self.subclasses_lookup
  let self := { self with lookup_calls := self.lookup_calls + 1 }
  let result : LCT :=
    match self.lct_override with
    | none => LCT.dict subclasses
    | some (LCT.dict d) => LCT.dict (dictUpdate d subclasses)
    | some (LCT.q q0) => LCT.q (Q.and q0 (Q.ofDict subclasses))
  (result, { self with cache := some result })

/-- The body of the `limit_choices_to` property setter (`fset`): stores
the value into `self._limit_choices_to`, pops the `__dict__` cache slot
and returns the popped value (`None` when the slot was empty). -/
def limit_choices_to_set (self : Rel) (value : Option LCT) :
    Option LCT × Rel :=
  let self := { self with lct_override := value }
  (self.cache, { self with cache := none })

/-- Reading the attribute `rel.limit_choices_to`.  Because `property`
defines both `__get__` and `__set__` it is a data descriptor, and
Python's attribute protocol gives data descriptors found on the class
precedence over entries in the instance `__dict__`; therefore every
read invokes the getter — the cache slot written by a previous read is
never consulted. -/
def read_limit_choices_to (self : Rel) : LCT × Rel :=
  limit_choices_to_get self

/-- The `default` slot of a field: Django's `NOT_PROVIDED` sentinel, an
explicit value, or the callable `partial(get_content_type,
polymorphic_type)` installed by `do_polymorphic_type`
(`get_content_type` comes from the compat module and returns the
content-type record of the given class, so the callable is identified
by the class it is bound to). -/
inductive FieldDefault where
  | notProvided : FieldDefault
  | value : Int → FieldDefault
  | contentTypeProvider : ModelCls → FieldDefault
  deriving DecidableEq, Repr

/-- A Python value supplied as the `polymorphic_type` argument: a class,
a string, or anything else (the `isclass` test in
`validate_polymorphic_type` rejects the latter). -/
inductive PyValue where
  | cls : ModelCls → PyValue
  | str : String → PyValue
  | other : PyValue
  deriving DecidableEq, Repr

/-- The error message of the `AssertionError` raised by
`validate_polymorphic_type`. -/
def assertion_message : String :=
  "First parameter to PolymorphicTypeField must be " ++
  "a subclass of BasePolymorphicModel"

/-- Embeds `PolymorphicTypeField.validate_polymorphic_type`: raises an
`AssertionError` unless the value is a class that is a subclass of
`BasePolymorphicModel`. -/
def validate_polymorphic_type (model : PyValue) : Except String Unit :=
  match model with
  | PyValue.cls c =>
      if c.is_polymorphic_subclass then Except.ok () else
        Except.error assertion_message
  | _ => Except.error assertion_message

/-- State of a `PolymorphicTypeField` instance: the slots of the field
object that the source reads or writes. `type_name` is the `self.type`
attribute (absent until `do_polymorphic_type` runs);
`error_invalid` is `self.error_messages['invalid']`. -/
structure Field where
  f_name : String
  null : Bool
  default : FieldDefault
  type_name : Option String
  error_invalid : String
  remote_field : Rel
  deriving DecidableEq, Repr

/-- The keyword arguments of `PolymorphicTypeField.__init__` that the
source's `defaults` dict interacts with, plus the slots forwarded to
`ForeignKey.__init__`.  `to` and `related_name` are `none` when the
caller did not pass them (the source's `defaults.update(kwargs)` then
leaves `ContentType` and `'+'` in place). -/
structure InitKwargs where
  to_model : Option (Sum ModelCls String) := none
  related_name : Option String := none
  null : Bool := false
  default : FieldDefault := FieldDefault.notProvided
  limit_choices_to : Option LCT := none
  deriving DecidableEq, Repr

/-- Embeds `PolymorphicTypeField.__init__`: validates a non-string
`polymorphic_type` immediately, merges `{'to': ContentType,
'related_name': '+'}` with the caller's kwargs (caller keys win via
`defaults.update(kwargs)`), delegates to `ForeignKey.__init__` and then
stores `polymorphic_type` on the remote field.  `f_name` stands for the
attribute name the field is later contributed under, and
`subclasses_env` for the answer the polymorphic type's subclass
registry (in `models.py`, outside this module) gives to
`subclasses_lookup('pk')`. -/
def fieldInit (polymorphic_type : PyValue) (f_name : String)
    (kwargs : InitKwargs) (subclasses_env : Lookup) :
    Except String Field :=
  match
    (match polymorphic_type with
     | PyValue.str _ => Except.ok ()
     | v => validate_polymorphic_type v) with
  | Except.error e => Except.error e
  | Except.ok _ =>
    let to_model := kwargs.to_model.getD (Sum.inl ContentType)
    let related_name := kwargs.related_name.getD "+"
    let pt : Sum ModelCls String :=
      match polymorphic_type with
      | PyValue.cls c => Sum.inl c
      | PyValue.str s => Sum.inr s
      | PyValue.other => Sum.inr ""
    Except.ok
      { f_name := f_name
        null := kwargs.null
        default := kwargs.default
        type_name := none
        error_invalid := "Specified model is not a subclass of %(model)s."
        remote_field :=
          { model := to_model
            polymorphic_type := pt
            field_name := "id"
            related_name := related_name
            subclasses_lookup := subclasses_env
            lct_override := kwargs.limit_choices_to
            cache := none
            lookup_calls := 0 } }

/-- Embeds `PolymorphicTypeField.do_polymorphic_type`: runs once the
polymorphic type is a resolved class.  Installs the content-type
default when no default was provided and the field disallows null,
records `self.type = polymorphic_type.__name__`, and installs the
target-specific `'invalid'` error message built from
`polymorphic_type._meta.object_name`. -/
def do_polymorphic_type (self : Field) (polymorphic_type : ModelCls) :
    Field :=
  let self :=
    if self.default = FieldDefault.notProvided ∧ self.null = false then
      { self with
          default := FieldDefault.contentTypeProvider polymorphic_type }
    else self
  { self with
      type_name := some polymorphic_type.py_name
      error_invalid :=
        "Specified content type is not of a subclass of " ++
        polymorphic_type.meta_object_name ++ "." }

/-- The `resolve_polymorphic_type` callback registered with
`lazy_related_operation` in `contribute_to_class`: validates the
resolved class, then assigns it to the remote field's
`polymorphic_type`, then runs `do_polymorphic_type`.  When validation
raises, the exception propagates before either mutation, so the
returned field state equals the input. -/
def resolve_polymorphic_type (field : Field) (related_model : ModelCls) :
    Option String × Field :=
  match validate_polymorphic_type (PyValue.cls related_model) with
  | Except.error e => (some e, field)
  | Except.ok _ =>
    let field :=
      { field with
          remote_field :=
            { field.remote_field with
                polymorphic_type := Sum.inl related_model } }
    (none, do_polymorphic_type field related_model)

/-- Embeds `PolymorphicTypeField.contribute_to_class` (the branch structure
after the `super()` call): when the remote field's `polymorphic_type`
is a string, or a class whose `_meta.pk` is still `None`, registration
of the lazy callback is requested (`Sum.inr` marks the deferred case,
carrying the unchanged field); otherwise `do_polymorphic_type` runs
immediately. -/
def contribute_to_class (self : Field) : Sum Field Field :=
  match self.remote_field.polymorphic_type with
  | Sum.inr _ => Sum.inr self
  | Sum.inl c =>
      if c.meta_pk_defined then Sum.inl (do_polymorphic_type self c)
      else Sum.inr self

/-- The backing queryset built by
`LazyPolymorphicTypeQueryset._setup()`: the remote model's default
manager, bound to the database alias, filtered by the relation's
`limit_choices_to` (`complex_filter`). -/
structure Queryset where
  model : Sum ModelCls String
  db : Option String
  filter : LCT
  deriving DecidableEq, Repr

/-- Embeds `_setup`: `get_remote_model(remote_field)._default_manager
.using(db).complex_filter(remote_field.limit_choices_to)`.  Reading
`limit_choices_to` goes through the property getter
(`read_limit_choices_to`). -/
def setup_queryset (remote_field : Rel) (db : Option String) : Queryset :=
  { model := remote_field.model
    db := db
    filter := (read_limit_choices_to remote_field).1 }

/-- State of a `LazyPolymorphicTypeQueryset`: the constructor's
`__dict__` slots (`remote_field`, `db`) plus the `_wrapped` slot of
Django's `LazyObject` (`none` while unmaterialized — the constructor
performs no query work). -/
structure LazyQS where
  remote_field : Rel
  db : Option String
  wrapped : Option Queryset
  deriving DecidableEq, Repr

/-- Embeds `LazyPolymorphicTypeQueryset.__init__`: stores `remote_field` and
`db`; `_wrapped` stays empty, no query work happens. -/
def LazyQS.init (remote_field : Rel) (db : Option String) : LazyQS :=
  { remote_field := remote_field, db := db, wrapped := none }

/-- An attribute access on the wrapper, per Django's `LazyObject`
contract (the host class this wrapper subclasses): when `_wrapped` is
still empty, `_setup()` materializes it exactly once; afterwards every
access delegates to the stored wrapped object without re-running
`_setup`. -/
def LazyQS.access (self : LazyQS) : Queryset × LazyQS :=
  match self.wrapped with
  | some w => (w, self)
  | none =>
    let w := setup_queryset self.remote_field self.db
    (w, { self with wrapped := some w })

/-- The form field `PolymorphicTypeField.formfield` constructs:
`forms.ModelChoiceField` with a lazy queryset and the relation's
`field_name` as `to_field_name`. -/
structure FormFieldSpec where
  form_class : String
  queryset : LazyQS
  to_field_name : String
  deriving DecidableEq, Repr

/-- The `ValueError` message of `formfield` for an unloaded related
model, with the `%r` conversions of `self.name` and the string spelled
out. -/
def formfield_error_message (field_name remote : String) : String :=
  "Cannot create form field for \x27" ++ field_name ++
  "\x27 yet, because its related model \x27" ++ remote ++
  "\x27 has not been loaded yet"

/-- Embeds `PolymorphicTypeField.formfield`: pops the `using` database alias,
reads the remote model via `get_remote_model(get_remote_field(self))`,
raises `ValueError` when that remote model is still a lazy string, and
otherwise builds a `ModelChoiceField` backed by a fresh
`LazyPolymorphicTypeQueryset`. -/
def formfield (self : Field) (using_db : Option String) :
    Except String FormFieldSpec :=
  match self.remote_field.model with
  | Sum.inr s => Except.error (formfield_error_message self.f_name s)
  | Sum.inl _ =>
    Except.ok
      { form_class := "ModelChoiceField"
        queryset := LazyQS.init self.remote_field using_db
        to_field_name := self.remote_field.field_name }

/-- The dotted path of the plain foreign-key class that both
deconstruction hooks report. -/
def plainForeignKeyPath : String :=
  "django.db.models.fields.related.ForeignKey"

/-- Python truthiness of a `limit_choices_to` value, as Django tests it
with `if self.remote_field.limit_choices_to:` in `deconstruct`: a dict
is truthy exactly when non-empty, a `Q` object is always truthy. -/
def LCT.truthy : LCT → Bool
  | LCT.dict d => !d.isEmpty
  | LCT.q _ => true

/-- The keyword arguments the foreign-key deconstruction protocol
emits for a field state: the ordinary foreign-key configuration
(target model, related name, null) plus — for Django's native
`deconstruct` since 1.7 — the `limit_choices_to` kwarg, present
whenever the relation's `limit_choices_to` reads truthy (`none` marks
an omitted kwarg). -/
structure FKKwargs where
  to_model : Sum ModelCls String
  related_name : String
  null : Bool
  limit_choices_to : Option LCT
  deriving DecidableEq, Repr

/-- The base relational shape of a field as South's `introspector`
observes it: only the ordinary foreign-key configuration, no
`limit_choices_to` entry (South's introspection rules do not capture
it). -/
def baseShape (self : Field) : FKKwargs :=
  { to_model := self.remote_field.model
    related_name := self.remote_field.related_name
    null := self.null
    limit_choices_to := none }

/-- Embeds `super(PolymorphicTypeField, self).deconstruct()` — Django's
`ForeignObject/RelatedField.deconstruct` (>= 1.7) per its contract:
name, the field's own dotted path, empty positional args, and the
foreign-key keyword arguments, where
`kwargs['limit_choices_to'] = self.remote_field.limit_choices_to` is
emitted whenever that attribute read is truthy.  On a
`PolymorphicManyToOneRel` the read goes through the overridden
property, so the emitted value is the computed effective filter. -/
def super_deconstruct (self : Field) :
    String × String × List Int × FKKwargs :=
  let lct := (read_limit_choices_to self.remote_field).1
  (self.f_name, "polymodels.fields.PolymorphicTypeField", [],
   { baseShape self with
       limit_choices_to := if lct.truthy then some lct else none })

/-- Embeds `PolymorphicTypeField.deconstruct`: takes the superclass output and
replaces the path with the plain `ForeignKey` path, leaving name, args
and kwargs untouched. -/
def deconstruct (self : Field) : String × String × List Int × FKKwargs :=
  match super_deconstruct self with
  | (name, _, args, kwargs) => (name, plainForeignKeyPath, args, kwargs)

/-- Embeds `PolymorphicTypeField.south_field_triple`: South's `introspector`
produces the base foreign-key args/kwargs (no `limit_choices_to`
entry), and the triple names the plain `ForeignKey` path. -/
def south_field_triple (self : Field) : String × List Int × FKKwargs :=
  (plainForeignKeyPath, [], baseShape self)

/-- Reconstruction through the generic foreign-key path: a plain
`ForeignKey` built from deconstructed args/kwargs.  Its schema-level
column shape is determined by the target model and nullability. -/
structure SchemaColumn where
  to_model : Sum ModelCls String
  null : Bool
  deriving DecidableEq, Repr

/-- The schema column a plain `ForeignKey` with the given deconstructed
kwargs produces (`limit_choices_to` is a query-time constraint with no
schema footprint). -/
def reconstructColumn (kwargs : FKKwargs) : SchemaColumn :=
  { to_model := kwargs.to_model, null := kwargs.null }

/-- The schema column the original field produces (its base relational
shape; the polymorphic behavior is a query-time constraint with no
schema footprint). -/
def fieldColumn (self : Field) : SchemaColumn :=
  { to_model := self.remote_field.model, null := self.null }

/-! ### Concrete sample values used by witnesses and counterexamples -/

/-- A sample polymorphic base model (subclass of `BasePolymorphicModel`,
with a primary key). -/
def PolyBase : ModelCls :=
  { py_name := "PolyBase"
    meta_object_name := "PolyBase"
    meta_pk_defined := true
    is_polymorphic_subclass := true }

/-- A sample ordinary model that is not a subclass of
`BasePolymorphicModel`. -/
def PlainModel : ModelCls :=
  { py_name := "Site"
    meta_object_name := "Site"
    meta_pk_defined := true
    is_polymorphic_subclass := false }

/-- A sample subclass-constraint mapping, as `subclasses_lookup('pk')`
would return it. -/
def sampleLookup : Lookup := [("pk__in", 7)]

/-- A sample relation state with a resolved polymorphic type and no
override. -/
def sampleRel : Rel :=
  { model := Sum.inl ContentType
    polymorphic_type := Sum.inl PolyBase
    field_name := "id"
    related_name := "+"
    subclasses_lookup := sampleLookup
    lct_override := none
    cache := none
    lookup_calls := 0 }

/-- A sample field whose polymorphic type has been resolved (the state
in which the migration framework calls `deconstruct`). -/
def resolvedField : Field :=
  { f_name := "content_type"
    null := false
    default := FieldDefault.contentTypeProvider PolyBase
    type_name := some "PolyBase"
    error_invalid :=
      "Specified content type is not of a subclass of PolyBase."
    remote_field := sampleRel }

/-- A sample field whose polymorphic type is still an unresolved lazy
string. -/
def pendingField : Field :=
  { f_name := "content_type"
    null := false
    default := FieldDefault.notProvided
    type_name := none
    error_invalid := "Specified model is not a subclass of %(model)s."
    remote_field := { sampleRel with polymorphic_type := Sum.inr "app.M" } }

/-! ### Helper lemmas on dict merging -/

/-- Filtering with a predicate that holds on every pair carrying key
`k` does not change the first pair found for `k`. -/
theorem find?_filter_of_key (l : Lookup) (pred : String × Int → Bool)
    (k : String) (h : ∀ p : String × Int, p.1 = k → pred p = true) :
    (l.filter pred).find? (fun p => p.1 = k) =
      l.find? (fun p => p.1 = k) := by
  induction l with
  | nil => rfl
  | cons q l ih =>
    by_cases hq : q.1 = k
    · rw [List.filter_cons, if_pos (h q hq)]
      rw [List.find?_cons_of_pos _ (by simpa using hq),
        List.find?_cons_of_pos _ (by simpa using hq)]
    · cases hp : pred q
      · rw [List.filter_cons, if_neg (by simp [hp]), ih,
          List.find?_cons_of_neg _ (by simpa using hq)]
      · rw [List.filter_cons, if_pos hp,
          List.find?_cons_of_neg _ (by simpa using hq),
          List.find?_cons_of_neg _ (by simpa using hq), ih]

/-- Unfolding a key lookup over a cons cell. -/
theorem get_cons (q : String × Int) (l : Lookup) (k : String) :
    Lookup.get (q :: l) k = if q.1 = k then some q.2 else l.get k := by
  by_cases hq : q.1 = k
  · rw [if_pos hq]
    unfold Lookup.get
    rw [List.find?_cons_of_pos _ (by simpa using hq)]
    rfl
  · rw [if_neg hq]
    unfold Lookup.get
    rw [List.find?_cons_of_neg _ (by simpa using hq)]

/-- Key lookup over a concatenation tries the left list first. -/
theorem get_append (l₁ l₂ : Lookup) (k : String) :
    Lookup.get (l₁ ++ l₂) k = (l₁.get k).or (l₂.get k) := by
  unfold Lookup.get
  rw [List.find?_append]
  cases l₁.find? (fun p : String × Int => decide (p.1 = k)) <;> rfl

/-- Key lookup over the updated copy of the base dict: present exactly
for the base keys, with the value taken from `extra` when `extra`
carries the key. -/
theorem get_map_updatePair (base extra : Lookup) (k : String) :
    Lookup.get (base.map (updatePair extra)) k =
      (base.get k).map (fun v => (extra.get k).getD v) := by
  induction base with
  | nil => rfl
  | cons q base ih =>
    have hkey : (updatePair extra q).1 = q.1 := by
      unfold updatePair
      cases extra.get q.1 <;> rfl
    show Lookup.get (updatePair extra q :: base.map (updatePair extra)) k
      = _
    rw [get_cons, get_cons, hkey]
    by_cases hq : q.1 = k
    · rw [if_pos hq, if_pos hq]
      unfold updatePair
      subst hq
      cases hx : extra.get q.1 <;> simp [hx]
    · rw [if_neg hq, if_neg hq, ih]

/-- Key lookup over the appended tail of the dict update: when the base
dict lacks the key, the filter keeps the relevant pairs of `extra`
intact. -/
theorem get_filter_of_none (base extra : Lookup) (k : String)
    (h : base.get k = none) :
    Lookup.get (extra.filter (fun p => (base.get p.1).isNone)) k =
      extra.get k := by
  unfold Lookup.get
  rw [find?_filter_of_key]
  intro p hp
  have h2 : (base.get p.1).isNone = true := by
    rw [hp, h]
    rfl
  exact h2

/-- Observable semantics of Python `dict(base, **extra)`: a key lookup
finds the value from `extra` when present there, and the value from
`base` otherwise — `extra` keys win on conflict. -/
theorem dictUpdate_get (base extra : Lookup) (k : String) :
    (dictUpdate base extra).get k =
      (match extra.get k with
       | some v => some v
       | none => base.get k) := by
  unfold dictUpdate
  rw [get_append, get_map_updatePair]
  cases hb : base.get k with
  | some v =>
    cases hx : extra.get k <;> simp [hx, hb]
  | none =>
    rw [get_filter_of_none _ _ _ hb]
    cases hx : extra.get k <;> rfl

/-! ### Claim theorems -/

/-- C1: for every state of the relation descriptor, reading
`limit_choices_to` returns the override merged with (not replaced by)
the subclass constraint: with no override the result is exactly the
subclass-constraint mapping, a dict override is shallow-merged with
subclass keys winning on conflict, and a `Q` override is conjoined
with a `Q` built from the subclass constraint. -/
theorem limit_choices_to_merges_override_with_subclass_constraint
    (r : Rel) :
    ((read_limit_choices_to r).1 =
      (match r.lct_override with
       | none => LCT.dict r.subclasses_lookup
       | some (LCT.dict d) => LCT.dict (dictUpdate d r.subclasses_lookup)
       | some (LCT.q q0) =>
           LCT.q (Q.and q0 (Q.ofDict r.subclasses_lookup)))) ∧
    (∀ d k, (dictUpdate d r.subclasses_lookup).get k =
      (match r.subclasses_lookup.get k with
       | some v => some v
       | none => d.get k)) := by
  constructor
  · rfl
  · intro d k
    exact dictUpdate_get d r.subclasses_lookup k

/-- C3 (evidence for the failing input): the getter populates the
`__dict__` cache slot as the source's comment intends, but because
`limit_choices_to` is a `property` — a data descriptor that Python's
attribute protocol consults before the instance `__dict__` — every
attribute read re-enters the getter: a second read invokes
`subclasses_lookup` again (the call counter reaches 2), and even a
pre-populated cache slot does not prevent the recomputation. -/
theorem read_limit_choices_to_recomputes_every_read :
    (read_limit_choices_to sampleRel).2.cache =
      some (LCT.dict sampleLookup) ∧
    (read_limit_choices_to
      (read_limit_choices_to sampleRel).2).2.lookup_calls = 2 ∧
    (read_limit_choices_to
      { sampleRel with cache := some (LCT.dict []) }).2.lookup_calls
      = 1 :=
  ⟨rfl, rfl, rfl⟩

/-- C4: the setter stores its argument as the new override, empties the
cache slot, returns the previously cached effective filter (or nothing
when the slot was empty), and the next read computes the merged filter
from the new override — never a stale value. -/
theorem limit_choices_to_set_stores_invalidates_returns_cache
    (r : Rel) (v : Option LCT) :
    (limit_choices_to_set r v).2.lct_override = v ∧
    (limit_choices_to_set r v).2.cache = none ∧
    (limit_choices_to_set r v).1 = r.cache ∧
    (read_limit_choices_to (limit_choices_to_set r v).2).1 =
      (match v with
       | none => LCT.dict r.subclasses_lookup
       | some (LCT.dict d) => LCT.dict (dictUpdate d r.subclasses_lookup)
       | some (LCT.q q0) =>
           LCT.q (Q.and q0 (Q.ofDict r.subclasses_lookup))) := by
  refine ⟨rfl, rfl, rfl, ?_⟩
  cases v with
  | none => rfl
  | some l => cases l <;> rfl

/-- C5: constructing the field with a class that is not a subclass of
`BasePolymorphicModel` fails immediately with the assertion-style
error, while a string-valued `polymorphic_type` is accepted at
construction without validation. -/
theorem fieldInit_validates_class_accepts_string :
    (∀ (c : ModelCls) (n : String) (kwargs : InitKwargs) (env : Lookup),
      c.is_polymorphic_subclass = false →
      fieldInit (PyValue.cls c) n kwargs env =
        Except.error assertion_message) ∧
    (∀ (s n : String) (kwargs : InitKwargs) (env : Lookup),
      (fieldInit (PyValue.str s) n kwargs env).isOk = true) := by
  constructor
  · intro c n kwargs env h
    simp [fieldInit, validate_polymorphic_type, h]
  · intro s n kwargs env
    rfl

/-- Witness for C5 at concrete inputs: `PlainModel` is rejected with
the assertion message, the string reference is accepted. -/
theorem fieldInit_validates_class_accepts_string_witness :
    PlainModel.is_polymorphic_subclass = false ∧
    fieldInit (PyValue.cls PlainModel) "content_type" {} [] =
      Except.error assertion_message ∧
    (fieldInit (PyValue.str "app.M") "content_type" {} []).isOk
      = true :=
  ⟨rfl,
   fieldInit_validates_class_accepts_string.1 PlainModel
     "content_type" {} [] rfl,
   fieldInit_validates_class_accepts_string.2 "app.M"
     "content_type" {} []⟩

/-- C6: `do_polymorphic_type` installs the content-type default
provider exactly when no default was provided and the field disallows
null, records the resolved class's short name, and installs the
target-specific invalid-choice message built from the resolved class's
object name. -/
theorem do_polymorphic_type_wires_default_name_and_message
    (f : Field) (pt : ModelCls) :
    (do_polymorphic_type f pt).default =
      (if f.default = FieldDefault.notProvided ∧ f.null = false
        then FieldDefault.contentTypeProvider pt else f.default) ∧
    (do_polymorphic_type f pt).type_name = some pt.py_name ∧
    (do_polymorphic_type f pt).error_invalid =
      "Specified content type is not of a subclass of " ++
        pt.meta_object_name ++ "." := by
  by_cases h : f.default = FieldDefault.notProvided ∧ f.null = false
  · simp [do_polymorphic_type, h]
  · simp [do_polymorphic_type, h]

/-- C7: the lazy queryset wrapper does no query work at construction,
materializes exactly once on first access (remote model from the
relation descriptor, the given database alias, the relation's
effective filter), never re-materializes once `_wrapped` is set, and
with no override the filter is exactly the subclass constraint. -/
theorem lazy_queryset_materializes_once (rf : Rel) (db : Option String) :
    (LazyQS.init rf db).wrapped = none ∧
    LazyQS.access (LazyQS.init rf db) =
      (setup_queryset rf db,
        { remote_field := rf, db := db,
          wrapped := some (setup_queryset rf db) }) ∧
    (∀ (q : LazyQS) (w : Queryset), q.wrapped = some w →
      LazyQS.access q = (w, q)) ∧
    (setup_queryset rf db).model = rf.model ∧
    (setup_queryset rf db).db = db ∧
    (setup_queryset rf db).filter = (read_limit_choices_to rf).1 ∧
    (rf.lct_override = none →
      (setup_queryset rf db).filter = LCT.dict rf.subclasses_lookup) := by
  refine ⟨rfl, rfl, ?_, rfl, rfl, rfl, ?_⟩
  · intro q w h
    unfold LazyQS.access
    rw [h]
  · intro h
    simp [setup_queryset, read_limit_choices_to,
      limit_choices_to_get, h]

/-- Witness for C7 at concrete inputs: an already materialized wrapper
is returned unchanged, and the no-override filter is the subclass
constraint. -/
theorem lazy_queryset_materializes_once_witness :
    LazyQS.access
      { remote_field := sampleRel, db := none,
        wrapped := some (setup_queryset sampleRel none) } =
      (setup_queryset sampleRel none,
        { remote_field := sampleRel, db := none,
          wrapped := some (setup_queryset sampleRel none) }) ∧
    (setup_queryset sampleRel none).filter =
      LCT.dict sampleRel.subclasses_lookup :=
  ⟨(lazy_queryset_materializes_once sampleRel none).2.2.1 _ _ rfl,
   (lazy_queryset_materializes_once sampleRel none).2.2.2.2.2.2 rfl⟩

/-- C2 (counterexample): a field constructed with a string-valued
`polymorphic_type` keeps the default `ContentType` relation target, so
`formfield` succeeds — the claimed configuration error is not raised
even though the polymorphic type reference is still an unresolved
string. -/
theorem formfield_accepts_unresolved_polymorphic_type :
    (fieldInit (PyValue.str "app.M") "content_type" {} []).map
      (fun f =>
        (f.remote_field.polymorphic_type, (formfield f none).isOk)) =
      Except.ok (Sum.inr "app.M", true) := rfl

/-- C2 (amended): `formfield` raises the loud configuration error —
naming the field and the unresolved reference — exactly when the
relation's remote model (the `to` target) is still an unresolved
string; with a resolved remote model it succeeds. -/
theorem formfield_raises_on_unresolved_remote_model
    (f : Field) (db : Option String) :
    (∀ s : String, f.remote_field.model = Sum.inr s →
      formfield f db =
        Except.error (formfield_error_message f.f_name s)) ∧
    (∀ c : ModelCls, f.remote_field.model = Sum.inl c →
      (formfield f db).isOk = true) := by
  constructor
  · intro s h
    unfold formfield
    rw [h]
  · intro c h
    unfold formfield
    rw [h]
    rfl

/-- Witness for the amended C2 at concrete inputs: a string-valued
remote model produces the error naming the field and the reference, a
resolved remote model succeeds. -/
theorem formfield_raises_on_unresolved_remote_model_witness :
    formfield
      { pendingField with
          remote_field := { pendingField.remote_field with
            model := Sum.inr "contenttypes.ContentType" } } none =
      Except.error (formfield_error_message "content_type"
        "contenttypes.ContentType") ∧
    (formfield pendingField none).isOk = true :=
  ⟨(formfield_raises_on_unresolved_remote_model
      { pendingField with
          remote_field := { pendingField.remote_field with
            model := Sum.inr "contenttypes.ContentType" } } none).1
      "contenttypes.ContentType" rfl,
   (formfield_raises_on_unresolved_remote_model pendingField none).2
      ContentType rfl⟩

/-- C8 (counterexample): the native deconstruction output is neither
the plain foreign-key kwargs nor independent of the subclass registry:
for a concrete resolved field, the superclass kwargs — which
`deconstruct` keeps untouched while swapping only the path — carry the
computed subclass constraint read through the overridden
`limit_choices_to` property, and changing the subclass registry
changes the output. -/
theorem deconstruct_carries_subclass_constraint_counterexample :
    (deconstruct resolvedField).2.2.2.limit_choices_to =
      some (LCT.dict sampleLookup) ∧
    (deconstruct resolvedField).2.2.2 ≠ baseShape resolvedField ∧
    (deconstruct
      { resolvedField with
          remote_field := { resolvedField.remote_field with
            subclasses_lookup := [("pk__in", 8)] } }).2.2.2 ≠
      (deconstruct resolvedField).2.2.2 := by
  refine ⟨rfl, by decide, by decide⟩

/-- C8 (amended): both deconstruction hooks report the plain
`ForeignKey` dotted path with empty positional args; the legacy South
triple carries only the base foreign-key shape and is invariant under
the polymorphic type and its subclass registry; the native
`deconstruct` keeps the superclass kwargs unchanged, which include the
computed effective `limit_choices_to` exactly when that value is
truthy (so the native output does vary with the subclass registry);
and reconstructing through the generic foreign-key path still yields
the same schema column as the original field, since
`limit_choices_to` has no schema footprint. -/
theorem deconstruction_paths_kwargs_and_schema (f : Field) :
    (deconstruct f).1 = f.f_name ∧
    (deconstruct f).2.1 = plainForeignKeyPath ∧
    (deconstruct f).2.2.1 = [] ∧
    (deconstruct f).2.2.2 =
      { baseShape f with
          limit_choices_to :=
            if ((read_limit_choices_to f.remote_field).1).truthy
            then some (read_limit_choices_to f.remote_field).1
            else none } ∧
    south_field_triple f = (plainForeignKeyPath, [], baseShape f) ∧
    (∀ (pt : Sum ModelCls String) (lookup : Lookup),
      south_field_triple
        { f with remote_field :=
            { f.remote_field with
                polymorphic_type := pt
                subclasses_lookup := lookup } } = south_field_triple f) ∧
    reconstructColumn (deconstruct f).2.2.2 = fieldColumn f :=
  ⟨rfl, rfl, rfl, rfl, rfl, fun _ _ => rfl, rfl⟩

/-- C9 (counterexample): the relation target and the reverse-accessor
suppression are overridable defaults, not forced — constructing with
explicit `to` and `related_name` kwargs yields a relation whose target
is not `ContentType` and whose reverse accessor is not suppressed. -/
theorem fieldInit_target_override_counterexample :
    (fieldInit (PyValue.cls PolyBase) "site_type"
        { to_model := some (Sum.inl PlainModel),
          related_name := some "site_types" } []).map
      (fun f => (f.remote_field.model, f.remote_field.related_name)) =
      Except.ok (Sum.inl PlainModel, "site_types") ∧
    (Sum.inl PlainModel : Sum ModelCls String) ≠ Sum.inl ContentType ∧
    "site_types" ≠ "+" := by
  refine ⟨rfl, by decide, by decide⟩

/-- C9 (amended): on every successful construction the relation's
target is `ContentType` and the reverse accessor is suppressed via
`related_name` set to the plus sentinel, unless the caller explicitly
overrides them through kwargs (the source's `defaults.update(kwargs)`
lets caller keys win). -/
theorem fieldInit_defaults_target_and_related_name
    (pt : PyValue) (n : String) (kwargs : InitKwargs) (env : Lookup)
    (f : Field) (h : fieldInit pt n kwargs env = Except.ok f) :
    f.remote_field.model = kwargs.to_model.getD (Sum.inl ContentType) ∧
    f.remote_field.related_name = kwargs.related_name.getD "+" := by
  unfold fieldInit at h
  cases hv : (match pt with
     | PyValue.str _ => Except.ok ()
     | v => validate_polymorphic_type v) with
  | error e =>
    rw [hv] at h
    exact Except.noConfusion h
  | ok u =>
    rw [hv] at h
    injection h with h2
    subst h2
    exact ⟨rfl, rfl⟩

/-- The field produced by a construction that leaves the target and
related-name defaults in place. -/
def defaultInitField : Field :=
  { f_name := "content_type"
    null := false
    default := FieldDefault.notProvided
    type_name := none
    error_invalid := "Specified model is not a subclass of %(model)s."
    remote_field :=
      { model := Sum.inl ContentType
        polymorphic_type := Sum.inl PolyBase
        field_name := "id"
        related_name := "+"
        subclasses_lookup := []
        lct_override := none
        cache := none
        lookup_calls := 0 } }

/-- Witness for the amended C9 at concrete inputs: with no kwargs the
constructed field targets `ContentType` with the suppressing related
name. -/
theorem fieldInit_defaults_target_and_related_name_witness :
    defaultInitField.remote_field.model =
      (({} : InitKwargs)).to_model.getD (Sum.inl ContentType) ∧
    defaultInitField.remote_field.related_name =
      (({} : InitKwargs)).related_name.getD "+" :=
  fieldInit_defaults_target_and_related_name (PyValue.cls PolyBase)
    "content_type" {} [] defaultInitField rfl

/-- C10: when the lazy-resolution callback fires with a class that is
not a subclass of `BasePolymorphicModel`, the fatal validation error
is raised before any mutation, so the field keeps its unresolved
reference, default, display name and error messages. -/
theorem resolve_polymorphic_type_error_preserves_field
    (f : Field) (m : ModelCls)
    (h : m.is_polymorphic_subclass = false) :
    resolve_polymorphic_type f m = (some assertion_message, f) ∧
    (resolve_polymorphic_type f m).2.remote_field.polymorphic_type =
      f.remote_field.polymorphic_type ∧
    (resolve_polymorphic_type f m).2.default = f.default ∧
    (resolve_polymorphic_type f m).2.type_name = f.type_name ∧
    (resolve_polymorphic_type f m).2.error_invalid =
      f.error_invalid := by
  have h1 : resolve_polymorphic_type f m =
      (some assertion_message, f) := by
    simp [resolve_polymorphic_type, validate_polymorphic_type, h]
  refine ⟨h1, ?_, ?_, ?_, ?_⟩ <;> rw [h1]

/-- Witness for C10 at concrete inputs: firing the callback on a field
with a pending string reference and a non-polymorphic class leaves the
field untouched. -/
theorem resolve_polymorphic_type_error_preserves_field_witness :
    PlainModel.is_polymorphic_subclass = false ∧
    resolve_polymorphic_type pendingField PlainModel =
      (some assertion_message, pendingField) :=
  ⟨rfl,
   (resolve_polymorphic_type_error_preserves_field pendingField
     PlainModel rfl).1⟩

end Polymodels
